import Mathlib

/-!
Verification of the job-summary hint-derivation logic of
`src/webportal/src/app/job/job-view/fabric/job-detail/components/summary.jsx`.

The component's `renderHintMessage` and `getUserFailureHintItems` methods are
embedded as pure Lean functions over an explicit `JobStatus` record.  The
humanized job state is computed by an external helper
(`getHumanizedJobStateString`) that is not part of the excerpt, so it is taken
as a `String` parameter.  JavaScript `undefined` is modelled with `Option`;
JavaScript truthiness of a string (empty string and `undefined` are falsy) is
modelled by `truthyStr`.  React elements pushed into the accumulator are
modelled by `SummaryItem`, keeping the `key` and `header` attributes of each
`HintItem` and an abstract body.
-/

namespace JobDetailSummary

/-- One fragment of the assembled "Exit Reason" hint body, tagged with its
source, mirroring the `key` attribute of each pushed `<div>`
(`spec-reason`, `runtime-reason`, `launcher-reason`). -/
inductive ReasonPart where
  | specReason (s : String)
  | runtimeReason (s : String)
  | launcherReason (s : String)
deriving DecidableEq, Repr

/-- One fragment of the assembled "Exit Solutions" hint body, tagged with its
source (the runtime message's `solution` string or one entry of the exit
spec's `solution` array). -/
inductive SolutionPart where
  | runtimeSolution (s : String)
  | specSolution (s : String)
deriving DecidableEq, Repr

/-- Abstract body of a rendered `HintItem`. -/
inductive HintBody where
  | intBody (n : Int)
  | strBody (s : String)
  | reasonBody (parts : List ReasonPart)
  | solutionBody (parts : List SolutionPart)
  | diagReferral
  | resolutionAdvice
deriving DecidableEq, Repr

/-- An element pushed into the `result` accumulator: either a `HintItem` with
its React `key`, its `header` and a body, or the keyless spacer `<div>`
pushed unconditionally in `getUserFailureHintItems`. -/
inductive SummaryItem where
  | hintItem (key : String) (header : String) (body : HintBody)
  | spacer
deriving DecidableEq, Repr

/-- Severity of the surrounding `MessageBar`. -/
inductive MessageBarType where
  | error
  | info
  | warning
deriving DecidableEq, Repr

/-- The `jobStatus.appExitMessages.runtime` record. -/
structure RuntimeOutput where
  reason : Option String
  solution : Option String
  originalUserExitCode : Option Int
deriving DecidableEq, Repr

/-- The `jobStatus.appExitSpec` record. -/
structure AppExitSpec where
  type : Option String
  reason : Option String
  solution : Option (List String)
deriving DecidableEq, Repr

/-- The `jobStatus.appExitMessages` record. -/
structure AppExitMessages where
  runtime : Option RuntimeOutput
  launcher : Option String
deriving DecidableEq, Repr

/-- The `jobStatus.retryDetails` record. -/
structure RetryDetails where
  resource : Option Int
deriving DecidableEq, Repr

/-- The fields of `jobInfo.jobStatus` read by the hint derivation. -/
structure JobStatus where
  appExitCode : Int
  appExitSpec : Option AppExitSpec
  appExitMessages : Option AppExitMessages
  appExitTriggerMessage : Option String
  appExitTriggerTaskRoleName : Option String
  appExitTriggerTaskIndex : Option Int
  retryDetails : Option RetryDetails
deriving DecidableEq, Repr

/-- The `jobInfo` prop; its `jobStatus` field may be absent in a malformed
input, which direct property access would turn into a TypeError. -/
structure JobInfo where
  jobStatus : Option JobStatus
deriving DecidableEq, Repr

/-- JavaScript truthiness of an optional string: `undefined` and the empty
string are falsy, every other string is kept. -/
def truthyStr : Option String → Option String
  | some s => if s = "" then none else some s
  | none => none

/-- The `runtimeOutput` local of `getUserFailureHintItems`:
`get(jobInfo, 'jobStatus.appExitMessages.runtime')`. -/
def runtimeOutputOf (js : JobStatus) : Option RuntimeOutput :=
  js.appExitMessages.bind fun m => m.runtime

/-- The `reason` accumulator of `getUserFailureHintItems`: the static
`appExitSpec.reason` when present and non-empty, then when `appExitCode > 0`
the runtime reason (when present and non-empty), otherwise the launcher
message (when present and non-empty). -/
def reasonList (js : JobStatus) : List ReasonPart :=
  (match truthyStr (js.appExitSpec.bind fun sp => sp.reason) with
   | some r => [ReasonPart.specReason r]
   | none => [])
  ++ (if js.appExitCode > 0 then
        match truthyStr ((runtimeOutputOf js).bind fun ro => ro.reason) with
        | some r => [ReasonPart.runtimeReason r]
        | none => []
      else
        match truthyStr (js.appExitMessages.bind fun m => m.launcher) with
        | some l => [ReasonPart.launcherReason l]
        | none => [])

/-- The `solution` accumulator of `getUserFailureHintItems`: the runtime
solution (when present and non-empty) followed by every entry of
`appExitSpec.solution` in original order (when that array is present). -/
def solutionList (js : JobStatus) : List SolutionPart :=
  (match truthyStr ((runtimeOutputOf js).bind fun ro => ro.solution) with
   | some s => [SolutionPart.runtimeSolution s]
   | none => [])
  ++ (match js.appExitSpec.bind fun sp => sp.solution with
      | some xs => xs.map SolutionPart.specSolution
      | none => [])

/-- The `result` list built by `getUserFailureHintItems`. -/
def getUserFailureHintItems (js : JobStatus) : List SummaryItem :=
  (if reasonList js = [] then []
   else [SummaryItem.hintItem "reason" "Exit Reason:"
          (HintBody.reasonBody (reasonList js))])
  ++ (if solutionList js = [] then []
      else [SummaryItem.hintItem "solution" "Exit Solutions:"
             (HintBody.solutionBody (solutionList js))])
  ++ [SummaryItem.spacer]
  ++ (match truthyStr js.appExitTriggerMessage with
      | some m => [SummaryItem.hintItem "trigger-message" "Exit Trigger Message:"
                    (HintBody.strBody m)]
      | none => [])
  ++ (match truthyStr js.appExitTriggerTaskRoleName with
      | some r => [SummaryItem.hintItem "task-role" "Exit Trigger Task Role:"
                    (HintBody.strBody r)]
      | none => [])
  ++ (match js.appExitTriggerTaskIndex with
      | some i => [SummaryItem.hintItem "container-id" "Exit Trigger Task Index:"
                    (HintBody.intBody i)]
      | none => [])
  ++ (match runtimeOutputOf js with
      | some ro =>
        match ro.originalUserExitCode with
        | some u => [SummaryItem.hintItem "user-exit-code" "Original User Exit Code:"
                      (HintBody.intBody u)]
        | none => []
      | none => [])

/-- The rendered `MessageBar`: its severity and the hint items inside it. -/
structure HintMessage where
  messageBarType : MessageBarType
  items : List SummaryItem
deriving DecidableEq, Repr

/-- The body of `renderHintMessage` after the `jobInfo` null-check, with the
humanized state passed explicitly; `none` models falling through without a
`return` value. -/
def renderHintMessage (state : String) (js : JobStatus) : Option HintMessage :=
  if state = "Failed" ∨ state = "Stopped" then
    some ⟨if state = "Failed" then MessageBarType.error else MessageBarType.info,
      SummaryItem.hintItem "platform-exit-code" "Exit Code:"
          (HintBody.intBody js.appExitCode)
      :: ((match truthyStr (js.appExitSpec.bind fun sp => sp.type) with
           | some t => [SummaryItem.hintItem "type" "Exit Type:" (HintBody.strBody t)]
           | none => [])
        ++ (if js.appExitSpec.bind (fun sp => sp.type) = some "USER_FAILURE" then
              getUserFailureHintItems js
            else
              [SummaryItem.hintItem "solution" "Exit Solutions:" HintBody.diagReferral]))⟩
  else if state = "Waiting" then
    match js.retryDetails.bind fun rd => rd.resource with
    | some n =>
      if n ≥ 3 then
        some ⟨MessageBarType.warning,
          [SummaryItem.hintItem "conflict-retry-count" "Conflict Count:"
            (HintBody.intBody n),
           SummaryItem.hintItem "resolution" "Resolution:" HintBody.resolutionAdvice]⟩
      else none
    | none => none
  else none

/-- A JavaScript runtime error, such as the TypeError raised by reading a
property of `undefined`. -/
inductive JsError where
  | typeError (msg : String)
deriving DecidableEq, Repr

/-- The full `renderHintMessage`, including the `if (!jobInfo) return;` guard
and the possibility of a TypeError: in the Failed/Stopped branch the code
dereferences `jobInfo.jobStatus` directly (lines 189 and 192), which throws
when `jobStatus` is absent, while the Waiting branch only uses the safe
`get` helper. -/
def renderHintMessageE (state : String) (info : Option JobInfo) :
    Except JsError (Option HintMessage) :=
  match info with
  | none => Except.ok none
  | some ji =>
    if state = "Failed" ∨ state = "Stopped" then
      match ji.jobStatus with
      | none => Except.error (JsError.typeError "cannot read property of undefined")
      | some js => Except.ok (renderHintMessage state js)
    else if state = "Waiting" then
      Except.ok
        (match ji.jobStatus with
         | some js => renderHintMessage state js
         | none => none)
    else Except.ok none

/-- The `StoppableStatus` constant. -/
def StoppableStatus : List String := ["Running", "Waiting"]

/-- The `disabled` prop of the Stop button:
`!StoppableStatus.includes(getHumanizedJobStateString(jobInfo))`. -/
def stopButtonDisabled (state : String) : Bool :=
  !(StoppableStatus.contains state)

/-- Whether a summary item is a `HintItem` carrying the given React key. -/
def isHintWithKey (k : String) : SummaryItem → Bool
  | SummaryItem.hintItem key _ _ => key == k
  | SummaryItem.spacer => false

/-- All hint items with the given key, in order of appearance. -/
def itemsWithKey (k : String) (items : List SummaryItem) : List SummaryItem :=
  items.filter (isHintWithKey k)

/-- A job status with every optional field absent. -/
def jsEmpty : JobStatus := ⟨0, none, none, none, none, none, none⟩

/-- A user-failure job status exercising every hint source: positive exit
code, static reason and one static solution entry, runtime reason and
solution, original user exit code 0, and all three trigger fields present
with task index 0. -/
def jsUF : JobStatus :=
  ⟨1, some ⟨some "USER_FAILURE", some "R1", some ["S2"]⟩,
   some ⟨some ⟨some "R2", some "S1", some 0⟩, none⟩,
   some "m", some "role", some 0, none⟩

/-- A user-failure job status whose `appExitTriggerMessage` is present but
equal to the empty string. -/
def jsTrigEmpty : JobStatus :=
  ⟨1, some ⟨some "USER_FAILURE", none, none⟩, none, some "", none, none, none⟩

/-- A waiting job status with three resource-conflict retries. -/
def jsRetry3 : JobStatus := ⟨0, none, none, none, none, none, some ⟨some 3⟩⟩

/-- The list of present (truthy) values of an optional string: empty when
the string is absent or empty, a singleton otherwise. -/
def presentStr (o : Option String) : List String :=
  match truthyStr o with
  | some s => [s]
  | none => []

/-- The Exit Reason parts in the order claim C2 states them: the
`appExitSpec.reason` if present, then when `appExitCode > 0` the
`appExitMessages.runtime.reason` if present, or else (`appExitCode <= 0`)
the `appExitMessages.launcher` message if present; presence of a string
means present and non-empty. -/
def c2ReasonParts (js : JobStatus) : List ReasonPart :=
  ((presentStr (js.appExitSpec.bind fun sp => sp.reason)).map ReasonPart.specReason)
  ++ (if 0 < js.appExitCode then
        ((presentStr ((js.appExitMessages.bind fun m => m.runtime).bind
          fun ro => ro.reason)).map ReasonPart.runtimeReason)
      else
        ((presentStr (js.appExitMessages.bind fun m => m.launcher)).map
          ReasonPart.launcherReason))

/-- The Exit Solutions parts in the order claim C3 states them: the
`appExitMessages.runtime.solution` first if present, followed by every
entry of `appExitSpec.solution` in original order when that array is
present. -/
def c3SolutionParts (js : JobStatus) : List SolutionPart :=
  ((presentStr ((js.appExitMessages.bind fun m => m.runtime).bind
    fun ro => ro.solution)).map SolutionPart.runtimeSolution)
  ++ (match js.appExitSpec.bind fun sp => sp.solution with
      | some xs => xs.map SolutionPart.specSolution
      | none => [])

end JobDetailSummary

namespace JobDetailSummary

/-- In the Failed and Stopped states the rendered message is always present:
its severity follows the state and its items are the exit-code hint, then the
optional exit-type hint, then either the user-failure items or the single
generic diagnostics referral. -/
theorem renderHintMessage_failed_stopped (state : String) (js : JobStatus)
    (h : state = "Failed" ∨ state = "Stopped") :
    renderHintMessage state js =
      some ⟨if state = "Failed" then MessageBarType.error else MessageBarType.info,
        SummaryItem.hintItem "platform-exit-code" "Exit Code:"
            (HintBody.intBody js.appExitCode)
        :: ((match truthyStr (js.appExitSpec.bind fun sp => sp.type) with
             | some t => [SummaryItem.hintItem "type" "Exit Type:" (HintBody.strBody t)]
             | none => [])
          ++ (if js.appExitSpec.bind (fun sp => sp.type) = some "USER_FAILURE" then
                getUserFailureHintItems js
              else
                [SummaryItem.hintItem "solution" "Exit Solutions:"
                  HintBody.diagReferral]))⟩ := by
  unfold renderHintMessage
  rw [if_pos h]

/-- Filtering the user-failure items for the `reason` key leaves exactly the
Exit Reason hint, present when the reason accumulator is non-empty. -/
theorem uf_itemsWithKey_reason (js : JobStatus) :
    itemsWithKey "reason" (getUserFailureHintItems js) =
      if reasonList js = [] then []
      else [SummaryItem.hintItem "reason" "Exit Reason:"
             (HintBody.reasonBody (reasonList js))] := by
  unfold getUserFailureHintItems itemsWithKey
  simp only [List.filter_append]
  repeat' split
  all_goals simp [isHintWithKey, List.filter]

/-- Filtering the user-failure items for the `solution` key leaves exactly
the Exit Solutions hint, present when the solution accumulator is
non-empty. -/
theorem uf_itemsWithKey_solution (js : JobStatus) :
    itemsWithKey "solution" (getUserFailureHintItems js) =
      if solutionList js = [] then []
      else [SummaryItem.hintItem "solution" "Exit Solutions:"
             (HintBody.solutionBody (solutionList js))] := by
  unfold getUserFailureHintItems itemsWithKey
  simp only [List.filter_append]
  repeat' split
  all_goals simp [isHintWithKey, List.filter]

/-- Filtering the user-failure items for the `trigger-message` key leaves
exactly the Exit Trigger Message hint, present when the field is truthy. -/
theorem uf_itemsWithKey_triggerMessage (js : JobStatus) :
    itemsWithKey "trigger-message" (getUserFailureHintItems js) =
      match truthyStr js.appExitTriggerMessage with
      | some m => [SummaryItem.hintItem "trigger-message" "Exit Trigger Message:"
                    (HintBody.strBody m)]
      | none => [] := by
  unfold getUserFailureHintItems itemsWithKey
  simp only [List.filter_append]
  repeat' split
  all_goals simp [isHintWithKey, List.filter]

/-- Filtering the user-failure items for the `task-role` key leaves exactly
the Exit Trigger Task Role hint, present when the field is truthy. -/
theorem uf_itemsWithKey_taskRole (js : JobStatus) :
    itemsWithKey "task-role" (getUserFailureHintItems js) =
      match truthyStr js.appExitTriggerTaskRoleName with
      | some r => [SummaryItem.hintItem "task-role" "Exit Trigger Task Role:"
                    (HintBody.strBody r)]
      | none => [] := by
  unfold getUserFailureHintItems itemsWithKey
  simp only [List.filter_append]
  repeat' split
  all_goals simp [isHintWithKey, List.filter]

/-- Filtering the user-failure items for the `container-id` key leaves
exactly the Exit Trigger Task Index hint, present whenever the field is
present, truthy or not. -/
theorem uf_itemsWithKey_taskIndex (js : JobStatus) :
    itemsWithKey "container-id" (getUserFailureHintItems js) =
      match js.appExitTriggerTaskIndex with
      | some i => [SummaryItem.hintItem "container-id" "Exit Trigger Task Index:"
                    (HintBody.intBody i)]
      | none => [] := by
  unfold getUserFailureHintItems itemsWithKey
  simp only [List.filter_append]
  repeat' split
  all_goals simp [isHintWithKey, List.filter]

/-- Claim C1: for every job-status input whose humanized state is none of
Failed, Stopped and Waiting, the hint derivation returns nothing: no hints
and no severity are produced. -/
theorem c1_other_states_no_hints (state : String) (js : JobStatus)
    (h1 : state ≠ "Failed") (h2 : state ≠ "Stopped") (h3 : state ≠ "Waiting") :
    renderHintMessage state js = none := by
  unfold renderHintMessage
  rw [if_neg (by simp [h1, h2]), if_neg h3]

/-- Witness for C1 at the humanized state "Succeeded". -/
theorem c1_witness : renderHintMessage "Succeeded" jsEmpty = none :=
  c1_other_states_no_hints "Succeeded" jsEmpty (by decide) (by decide) (by decide)

/-- Claim C9: hint derivation is deterministic and pure; structurally equal
inputs give structurally equal outputs, and the embedding is a state-free
function of the job status alone. -/
theorem c9_deterministic (s₁ s₂ : String) (js₁ js₂ : JobStatus)
    (hs : s₁ = s₂) (hj : js₁ = js₂) :
    renderHintMessage s₁ js₁ = renderHintMessage s₂ js₂ ∧
      getUserFailureHintItems js₁ = getUserFailureHintItems js₂ := by
  subst hs; subst hj; exact ⟨rfl, rfl⟩

/-- Witness for C9 at a concrete input. -/
theorem c9_witness :
    renderHintMessage "Failed" jsEmpty = renderHintMessage "Failed" jsEmpty ∧
      getUserFailureHintItems jsEmpty = getUserFailureHintItems jsEmpty :=
  c9_deterministic "Failed" "Failed" jsEmpty jsEmpty rfl rfl

/-- Claim C10: the Stop button is enabled (not disabled) exactly when the
humanized job state is Running or Waiting; every other state, including
Failed, Stopped and Succeeded, disables it. -/
theorem c10_stop_button (state : String) :
    stopButtonDisabled state = false ↔ (state = "Running" ∨ state = "Waiting") := by
  simp [stopButtonDisabled, StoppableStatus, List.contains]
  tauto

/-- Claim C5: for every Failed or Stopped job the derived result is present,
its first hint is the Exit Code hint carrying `appExitCode`, and its
severity is error for Failed and info for Stopped. -/
theorem c5_exit_code_and_severity (state : String) (js : JobStatus)
    (h : state = "Failed" ∨ state = "Stopped") :
    ∃ hm, renderHintMessage state js = some hm ∧
      (∃ rest, hm.items =
        SummaryItem.hintItem "platform-exit-code" "Exit Code:"
          (HintBody.intBody js.appExitCode) :: rest) ∧
      hm.messageBarType =
        (if state = "Failed" then MessageBarType.error else MessageBarType.info) :=
  ⟨_, renderHintMessage_failed_stopped state js h, ⟨_, rfl⟩, rfl⟩

/-- Witness for C5 at state Stopped on the empty job status. -/
theorem c5_witness :
    ∃ hm, renderHintMessage "Stopped" jsEmpty = some hm ∧
      (∃ rest, hm.items =
        SummaryItem.hintItem "platform-exit-code" "Exit Code:"
          (HintBody.intBody jsEmpty.appExitCode) :: rest) ∧
      hm.messageBarType =
        (if "Stopped" = "Failed" then MessageBarType.error else MessageBarType.info) :=
  c5_exit_code_and_severity "Stopped" jsEmpty (Or.inr rfl)

/-- Claim C4: for every Failed or Stopped job, a present non-empty
`appExitSpec.type` yields an Exit Type hint with that type; when the type
equals USER_FAILURE the user-failure items follow the exit-code and type
hints, and in every other case the items end with the single generic
diagnostics-referral hint instead of the user-failure items. -/
theorem c4_type_dispatch (state : String) (js : JobStatus)
    (h : state = "Failed" ∨ state = "Stopped") :
    ∃ hm, renderHintMessage state js = some hm ∧
      (∀ t, js.appExitSpec.bind (fun sp => sp.type) = some t → t ≠ "" →
        SummaryItem.hintItem "type" "Exit Type:" (HintBody.strBody t) ∈ hm.items) ∧
      (js.appExitSpec.bind (fun sp => sp.type) = some "USER_FAILURE" →
        hm.items =
          SummaryItem.hintItem "platform-exit-code" "Exit Code:"
            (HintBody.intBody js.appExitCode)
          :: SummaryItem.hintItem "type" "Exit Type:" (HintBody.strBody "USER_FAILURE")
          :: getUserFailureHintItems js) ∧
      (js.appExitSpec.bind (fun sp => sp.type) ≠ some "USER_FAILURE" →
        hm.items =
          SummaryItem.hintItem "platform-exit-code" "Exit Code:"
            (HintBody.intBody js.appExitCode)
          :: ((match truthyStr (js.appExitSpec.bind fun sp => sp.type) with
               | some t => [SummaryItem.hintItem "type" "Exit Type:" (HintBody.strBody t)]
               | none => [])
            ++ [SummaryItem.hintItem "solution" "Exit Solutions:"
                 HintBody.diagReferral])) := by
  refine ⟨_, renderHintMessage_failed_stopped state js h, ?_, ?_, ?_⟩
  · intro t ht hne
    simp [ht, truthyStr, hne]
  · intro hUF
    simp [hUF, truthyStr]
  · intro hne
    simp [hne]

/-- Witness for C4 at state Failed on the all-fields-present user-failure
job status. -/
theorem c4_witness :
    ∃ hm, renderHintMessage "Failed" jsUF = some hm ∧
      (∀ t, jsUF.appExitSpec.bind (fun sp => sp.type) = some t → t ≠ "" →
        SummaryItem.hintItem "type" "Exit Type:" (HintBody.strBody t) ∈ hm.items) ∧
      (jsUF.appExitSpec.bind (fun sp => sp.type) = some "USER_FAILURE" →
        hm.items =
          SummaryItem.hintItem "platform-exit-code" "Exit Code:"
            (HintBody.intBody jsUF.appExitCode)
          :: SummaryItem.hintItem "type" "Exit Type:" (HintBody.strBody "USER_FAILURE")
          :: getUserFailureHintItems jsUF) ∧
      (jsUF.appExitSpec.bind (fun sp => sp.type) ≠ some "USER_FAILURE" →
        hm.items =
          SummaryItem.hintItem "platform-exit-code" "Exit Code:"
            (HintBody.intBody jsUF.appExitCode)
          :: ((match truthyStr (jsUF.appExitSpec.bind fun sp => sp.type) with
               | some t => [SummaryItem.hintItem "type" "Exit Type:" (HintBody.strBody t)]
               | none => [])
            ++ [SummaryItem.hintItem "solution" "Exit Solutions:"
                 HintBody.diagReferral])) :=
  c4_type_dispatch "Failed" jsUF (Or.inl rfl)

/-- In the Failed or Stopped state with a USER_FAILURE exit type, filtering
the whole rendered item list for a key other than `platform-exit-code` and
`type` is the same as filtering the user-failure items. -/
theorem itemsWithKey_uf_of_userFailure (state : String) (js : JobStatus)
    (k : String) (h : state = "Failed" ∨ state = "Stopped")
    (hUF : js.appExitSpec.bind (fun sp => sp.type) = some "USER_FAILURE")
    (hk1 : ("platform-exit-code" == k) = false) (hk2 : ("type" == k) = false) :
    ∃ hm, renderHintMessage state js = some hm ∧
      itemsWithKey k hm.items = itemsWithKey k (getUserFailureHintItems js) := by
  refine ⟨_, renderHintMessage_failed_stopped state js h, ?_⟩
  simp [itemsWithKey, List.filter_append, List.filter_cons, isHintWithKey,
    hUF, truthyStr, hk1, hk2]

/-- Claim C2: for every Failed or Stopped USER_FAILURE job, the Exit Reason
hint body is assembled exactly as claimed — static spec reason first, then
the runtime reason when `appExitCode > 0`, or else the launcher message —
the hint is emitted exactly when at least one part exists, and a
non-positive exit code admits no runtime-sourced part. -/
theorem c2_exit_reason (state : String) (js : JobStatus)
    (h : state = "Failed" ∨ state = "Stopped")
    (hUF : js.appExitSpec.bind (fun sp => sp.type) = some "USER_FAILURE") :
    ∃ hm, renderHintMessage state js = some hm ∧
      reasonList js = c2ReasonParts js ∧
      (c2ReasonParts js ≠ [] →
        itemsWithKey "reason" hm.items =
          [SummaryItem.hintItem "reason" "Exit Reason:"
            (HintBody.reasonBody (c2ReasonParts js))]) ∧
      (c2ReasonParts js = [] → itemsWithKey "reason" hm.items = []) ∧
      (js.appExitCode ≤ 0 → ∀ s, ReasonPart.runtimeReason s ∉ c2ReasonParts js) := by
  have heq : reasonList js = c2ReasonParts js := by
    unfold reasonList c2ReasonParts presentStr runtimeOutputOf
    repeat' split
    all_goals rfl
  obtain ⟨hm, hrender, hfilter⟩ :=
    itemsWithKey_uf_of_userFailure state js "reason" h hUF (by decide) (by decide)
  refine ⟨hm, hrender, heq, ?_, ?_, ?_⟩
  · intro hne
    rw [hfilter, uf_itemsWithKey_reason, heq, if_neg hne]
  · intro hnil
    rw [hfilter, uf_itemsWithKey_reason, heq, if_pos hnil]
  · intro hle s
    unfold c2ReasonParts presentStr
    rw [if_neg (by omega)]
    repeat' split <;> simp

/-- Witness for C2 at state Failed on the all-fields-present user-failure
job status. -/
theorem c2_witness :
    ∃ hm, renderHintMessage "Failed" jsUF = some hm ∧
      reasonList jsUF = c2ReasonParts jsUF ∧
      (c2ReasonParts jsUF ≠ [] →
        itemsWithKey "reason" hm.items =
          [SummaryItem.hintItem "reason" "Exit Reason:"
            (HintBody.reasonBody (c2ReasonParts jsUF))]) ∧
      (c2ReasonParts jsUF = [] → itemsWithKey "reason" hm.items = []) ∧
      (jsUF.appExitCode ≤ 0 → ∀ s, ReasonPart.runtimeReason s ∉ c2ReasonParts jsUF) :=
  c2_exit_reason "Failed" jsUF (Or.inl rfl) rfl

/-- Claim C3: for every Failed or Stopped USER_FAILURE job, the Exit
Solutions hint collects the runtime solution first, then every entry of
`appExitSpec.solution` in original order, and is emitted exactly when this
collection is non-empty. -/
theorem c3_exit_solutions (state : String) (js : JobStatus)
    (h : state = "Failed" ∨ state = "Stopped")
    (hUF : js.appExitSpec.bind (fun sp => sp.type) = some "USER_FAILURE") :
    ∃ hm, renderHintMessage state js = some hm ∧
      solutionList js = c3SolutionParts js ∧
      (c3SolutionParts js ≠ [] →
        itemsWithKey "solution" hm.items =
          [SummaryItem.hintItem "solution" "Exit Solutions:"
            (HintBody.solutionBody (c3SolutionParts js))]) ∧
      (c3SolutionParts js = [] → itemsWithKey "solution" hm.items = []) := by
  have heq : solutionList js = c3SolutionParts js := by
    unfold solutionList c3SolutionParts presentStr runtimeOutputOf
    repeat' split
    all_goals rfl
  obtain ⟨hm, hrender, hfilter⟩ :=
    itemsWithKey_uf_of_userFailure state js "solution" h hUF (by decide) (by decide)
  refine ⟨hm, hrender, heq, ?_, ?_⟩
  · intro hne
    rw [hfilter, uf_itemsWithKey_solution, heq, if_neg hne]
  · intro hnil
    rw [hfilter, uf_itemsWithKey_solution, heq, if_pos hnil]

/-- Witness for C3 at state Failed on the all-fields-present user-failure
job status. -/
theorem c3_witness :
    ∃ hm, renderHintMessage "Failed" jsUF = some hm ∧
      solutionList jsUF = c3SolutionParts jsUF ∧
      (c3SolutionParts jsUF ≠ [] →
        itemsWithKey "solution" hm.items =
          [SummaryItem.hintItem "solution" "Exit Solutions:"
            (HintBody.solutionBody (c3SolutionParts jsUF))]) ∧
      (c3SolutionParts jsUF = [] → itemsWithKey "solution" hm.items = []) :=
  c3_exit_solutions "Failed" jsUF (Or.inl rfl) rfl

/-- Counterexample to claim C6 as stated: `appExitTriggerMessage` is present
(equal to the empty string) on a Failed USER_FAILURE job, yet no Exit
Trigger Message hint is emitted, because the code tests JavaScript
truthiness, not presence, for the message and role fields. -/
theorem c6_counterexample :
    jsTrigEmpty.appExitTriggerMessage = some "" ∧
    (renderHintMessage "Failed" jsTrigEmpty).map
      (fun hm => itemsWithKey "trigger-message" hm.items) = some [] := by
  constructor
  · rfl
  · rfl

/-- Claim C6 as amended: for every Failed or Stopped USER_FAILURE job, the
Exit Trigger Message and Exit Trigger Task Role hints are each emitted
independently exactly when the corresponding field is present and non-empty
(JavaScript truthiness), while the Exit Trigger Task Index hint is emitted
exactly when the field is present — truthiness is not required, so a task
index of 0 still produces a hint with value 0. -/
theorem c6_trigger_hints (state : String) (js : JobStatus)
    (h : state = "Failed" ∨ state = "Stopped")
    (hUF : js.appExitSpec.bind (fun sp => sp.type) = some "USER_FAILURE") :
    ∃ hm, renderHintMessage state js = some hm ∧
      itemsWithKey "trigger-message" hm.items =
        (match truthyStr js.appExitTriggerMessage with
         | some m => [SummaryItem.hintItem "trigger-message" "Exit Trigger Message:"
                       (HintBody.strBody m)]
         | none => []) ∧
      itemsWithKey "task-role" hm.items =
        (match truthyStr js.appExitTriggerTaskRoleName with
         | some r => [SummaryItem.hintItem "task-role" "Exit Trigger Task Role:"
                       (HintBody.strBody r)]
         | none => []) ∧
      itemsWithKey "container-id" hm.items =
        (match js.appExitTriggerTaskIndex with
         | some i => [SummaryItem.hintItem "container-id" "Exit Trigger Task Index:"
                       (HintBody.intBody i)]
         | none => []) := by
  obtain ⟨hm, hrender, hmsg⟩ :=
    itemsWithKey_uf_of_userFailure state js "trigger-message" h hUF (by decide) (by decide)
  obtain ⟨hm2, hrender2, hrole⟩ :=
    itemsWithKey_uf_of_userFailure state js "task-role" h hUF (by decide) (by decide)
  obtain ⟨hm3, hrender3, hidx⟩ :=
    itemsWithKey_uf_of_userFailure state js "container-id" h hUF (by decide) (by decide)
  rw [hrender] at hrender2 hrender3
  cases hrender2
  cases hrender3
  exact ⟨hm, hrender,
    hmsg.trans (uf_itemsWithKey_triggerMessage js),
    hrole.trans (uf_itemsWithKey_taskRole js),
    hidx.trans (uf_itemsWithKey_taskIndex js)⟩

/-- Witness for the amended C6 at state Failed on the user-failure job
status whose trigger task index is 0. -/
theorem c6_witness :
    ∃ hm, renderHintMessage "Failed" jsUF = some hm ∧
      itemsWithKey "trigger-message" hm.items =
        (match truthyStr jsUF.appExitTriggerMessage with
         | some m => [SummaryItem.hintItem "trigger-message" "Exit Trigger Message:"
                       (HintBody.strBody m)]
         | none => []) ∧
      itemsWithKey "task-role" hm.items =
        (match truthyStr jsUF.appExitTriggerTaskRoleName with
         | some r => [SummaryItem.hintItem "task-role" "Exit Trigger Task Role:"
                       (HintBody.strBody r)]
         | none => []) ∧
      itemsWithKey "container-id" hm.items =
        (match jsUF.appExitTriggerTaskIndex with
         | some i => [SummaryItem.hintItem "container-id" "Exit Trigger Task Index:"
                       (HintBody.intBody i)]
         | none => []) :=
  c6_trigger_hints "Failed" jsUF (Or.inl rfl) rfl

/-- Claim C7: for every Waiting job, when `retryDetails.resource` is present
and at least 3 the result has severity warning with the Conflict Count hint
carrying the retry count and the fixed Resolution hint; when it is present
but below 3, or absent, the result is nothing. -/
theorem c7_waiting_conflicts (js : JobStatus) (state : String)
    (h : state = "Waiting") :
    (∀ n, js.retryDetails.bind (fun rd => rd.resource) = some n →
      renderHintMessage state js =
        (if n ≥ 3 then
          some ⟨MessageBarType.warning,
            [SummaryItem.hintItem "conflict-retry-count" "Conflict Count:"
              (HintBody.intBody n),
             SummaryItem.hintItem "resolution" "Resolution:"
              HintBody.resolutionAdvice]⟩
         else none)) ∧
    (js.retryDetails.bind (fun rd => rd.resource) = none →
      renderHintMessage state js = none) := by
  subst h
  constructor
  · intro n hn
    unfold renderHintMessage
    rw [if_neg (by simp), if_pos rfl, hn]
  · intro hn
    unfold renderHintMessage
    rw [if_neg (by simp), if_pos rfl, hn]

/-- Witness for C7: three resource retries while Waiting yield the warning
message with the Conflict Count hint at 3. -/
theorem c7_witness :
    renderHintMessage "Waiting" jsRetry3 =
      (if (3 : Int) ≥ 3 then
        some ⟨MessageBarType.warning,
          [SummaryItem.hintItem "conflict-retry-count" "Conflict Count:"
            (HintBody.intBody 3),
           SummaryItem.hintItem "resolution" "Resolution:"
            HintBody.resolutionAdvice]⟩
       else none) :=
  (c7_waiting_conflicts jsRetry3 "Waiting" rfl).1 3 rfl

/-- Claim C8: whenever `jobInfo`, if present, carries a `jobStatus` record,
the hint derivation never raises an error: it always returns a value, with
every absent optional field merely omitting its hints. -/
theorem c8_no_error (state : String) (info : Option JobInfo)
    (h : ∀ ji, info = some ji → ji.jobStatus ≠ none) :
    ∃ r, renderHintMessageE state info = Except.ok r := by
  cases info with
  | none => exact ⟨none, rfl⟩
  | some ji =>
    cases hjs : ji.jobStatus with
    | none => exact absurd hjs (h ji rfl)
    | some js =>
      simp only [renderHintMessageE]
      rw [hjs]
      by_cases h1 : state = "Failed" ∨ state = "Stopped"
      · rw [if_pos h1]
        exact ⟨_, rfl⟩
      · rw [if_neg h1]
        by_cases h2 : state = "Waiting"
        · rw [if_pos h2]
          exact ⟨_, rfl⟩
        · rw [if_neg h2]
          exact ⟨_, rfl⟩

/-- Witness for C8 at state Failed with a well-formed `jobInfo`. -/
theorem c8_witness :
    ∃ r, renderHintMessageE "Failed" (some ⟨some jsEmpty⟩) = Except.ok r :=
  c8_no_error "Failed" (some ⟨some jsEmpty⟩)
    (by intro ji hji; cases hji; simp)

end JobDetailSummary
